import Mathlib

/-!
# Verification of a CHIP-8 interpreter core

Shallow embedding of the interpreter's core (instruction decoding, the
fetch/decode/execute cycle, the sprite compositor and the dual-clock event
handlers) and proofs about it.  Machine integers are modelled as `Nat` with
explicit `% 2^w` reductions where the source wraps; fallible paths
(`panic!`, `unwrap`, `process::exit`) are modelled with `Except` and an
explicit step-result type.
-/

namespace Chip8

/-- Field decomposition of one raw 16-bit instruction word
(struct `Opcode` in `chip8/instruction.rs`). -/
structure Opcode where
  raw : Nat
  x : Nat
  y : Nat
  n : Nat
  nnn : Nat
  kk : Nat
  deriving DecidableEq, Repr

/-- `fn take_param_n`: `opcode & 0x000F`. -/
def take_param_n (opcode : Nat) : Nat := opcode &&& 0x000F

/-- `fn take_param_nnn`: `opcode & 0x0FFF`. -/
def take_param_nnn (opcode : Nat) : Nat := opcode &&& 0x0FFF

/-- `fn take_param_kk`: `opcode & 0x00FF`. -/
def take_param_kk (opcode : Nat) : Nat := opcode &&& 0x00FF

/-- `fn take_param_x`: `(opcode & 0x0F00) >> 8`. -/
def take_param_x (opcode : Nat) : Nat := (opcode &&& 0x0F00) >>> 8

/-- `fn take_param_y`: `(opcode & 0x00F0) >> 4`. -/
def take_param_y (opcode : Nat) : Nat := (opcode &&& 0x00F0) >>> 4

/-- `Opcode::new`. -/
def Opcode.new (raw : Nat) : Opcode :=
  { raw := raw
    x := take_param_x raw
    y := take_param_y raw
    n := take_param_n raw
    nnn := take_param_nnn raw
    kk := take_param_kk raw }

/-- The instruction variants of `enum Instruction` in `chip8/instruction.rs`. -/
inductive Instruction where
  | End (op : Opcode)
  | I00E0 (op : Opcode)
  | I00EE (op : Opcode)
  | I1NNN (op : Opcode)
  | I2NNN (op : Opcode)
  | I3XNN (op : Opcode)
  | I4XNN (op : Opcode)
  | I5XY0 (op : Opcode)
  | I6XNN (op : Opcode)
  | I7XNN (op : Opcode)
  | I8XY0 (op : Opcode)
  | I8XY1 (op : Opcode)
  | I8XY2 (op : Opcode)
  | I8XY3 (op : Opcode)
  | I8XY4 (op : Opcode)
  | I8XY5 (op : Opcode)
  | I8XY7 (op : Opcode)
  | I8XY6 (op : Opcode)
  | I8XYE (op : Opcode)
  | I9XY0 (op : Opcode)
  | IANNN (op : Opcode)
  | IBNNN (op : Opcode)
  | ICXNN (op : Opcode)
  | IFX1E (op : Opcode)
  | IDXYN (op : Opcode)
  deriving DecidableEq, Repr

/-- `Instruction::from_raw_opcode`, mirroring the source's early-return
`if` chain.  Note that the source has no branch for high nibble `0xB`,
`0xC`, `0xE` or `0xF`, and the `0x8` family falls through to the final
error when the low nibble is `8..=0xD` or `0xF`. -/
def Instruction.from_raw_opcode (raw_opcode : Nat) : Except String Instruction :=
  let opcode := Opcode.new raw_opcode
  if raw_opcode = 0x00 then .ok (.End opcode)
  else if raw_opcode = 0x00E0 then .ok (.I00E0 opcode)
  else if raw_opcode = 0x00EE then .ok (.I00EE opcode)
  else if raw_opcode >>> 12 = 0x1 then .ok (.I1NNN opcode)
  else if raw_opcode >>> 12 = 0x2 then .ok (.I2NNN opcode)
  else if raw_opcode >>> 12 = 0x3 then .ok (.I3XNN opcode)
  else if raw_opcode >>> 12 = 0x4 then .ok (.I4XNN opcode)
  else if raw_opcode >>> 12 = 0x5 then .ok (.I5XY0 opcode)
  else if raw_opcode >>> 12 = 0x6 then .ok (.I6XNN opcode)
  else if raw_opcode >>> 12 = 0x7 then .ok (.I7XNN opcode)
  else if raw_opcode >>> 12 = 0x8 then
    let last_nible := raw_opcode &&& 0xF
    if last_nible = 0 then .ok (.I8XY0 opcode)
    else if last_nible = 1 then .ok (.I8XY1 opcode)
    else if last_nible = 2 then .ok (.I8XY2 opcode)
    else if last_nible = 3 then .ok (.I8XY3 opcode)
    else if last_nible = 4 then .ok (.I8XY4 opcode)
    else if last_nible = 5 then .ok (.I8XY5 opcode)
    else if last_nible = 6 then .ok (.I8XY6 opcode)
    else if last_nible = 7 then .ok (.I8XY7 opcode)
    else if last_nible = 0xE then .ok (.I8XYE opcode)
    else .error "Cannot decode instruction"
  else if raw_opcode >>> 12 = 0xA then .ok (.IANNN opcode)
  else if raw_opcode >>> 12 = 0x9 then .ok (.I9XY0 opcode)
  else if raw_opcode >>> 12 = 0xD then .ok (.IDXYN opcode)
  else .error "Cannot decode instruction"

/-- `const MEMORY_SIZE: u16 = 4096`. -/
def MEMORY_SIZE : Nat := 4096

/-- `const FIRST_LOADABLE_ADDR: u16 = 0x200`. -/
def FIRST_LOADABLE_ADDR : Nat := 0x200

/-- `const FRAME_BUFFER_WIDTH: usize = 64`. -/
def FRAME_BUFFER_WIDTH : Nat := 64

/-- `const FRAME_BUFFER_HEIGHT: usize = 32`. -/
def FRAME_BUFFER_HEIGHT : Nat := 32

/-- `const FONTS_DATA: [u8; 80]`, the 16 five-byte glyphs. -/
def FONTS_DATA : List Nat :=
  [0xF0, 0x90, 0x90, 0x90, 0xF0,
   0x20, 0x60, 0x20, 0x20, 0x70,
   0xF0, 0x10, 0xF0, 0x80, 0xF0,
   0xF0, 0x10, 0xF0, 0x10, 0xF0,
   0x90, 0x90, 0xF0, 0x10, 0x10,
   0xF0, 0x80, 0xF0, 0x10, 0xF0,
   0xF0, 0x80, 0xF0, 0x90, 0xF0,
   0xF0, 0x10, 0x20, 0x40, 0x40,
   0xF0, 0x90, 0xF0, 0x90, 0xF0,
   0xF0, 0x90, 0xF0, 0x10, 0xF0,
   0xF0, 0x90, 0xF0, 0x90, 0x90,
   0xE0, 0x90, 0xE0, 0x90, 0xE0,
   0xF0, 0x80, 0x80, 0x80, 0xF0,
   0xE0, 0x90, 0x90, 0x90, 0xE0,
   0xF0, 0x80, 0xF0, 0x80, 0xF0,
   0xF0, 0x80, 0xF0, 0x80, 0x80]

/-- `fn init_mem`: a 4096-byte array of zeros with `FONTS_DATA` copied
into its first 80 cells. -/
def init_mem : List Nat :=
  FONTS_DATA ++ List.replicate (MEMORY_SIZE - FONTS_DATA.length) 0

/-- The machine state of `struct Chip8Interpreter` (the presentation-only
`window` handle is omitted; it never affects core state). -/
structure Chip8Interpreter where
  registers_v : List Nat
  register_i : Nat
  delay_timer : Nat
  sound_timer : Nat
  register_pc : Nat
  mem : List Nat
  frame_buffer : List (List Nat)
  stack : List Nat
  old_shift : Bool
  deriving DecidableEq, Repr

/-- `Chip8Interpreter::new`. -/
def Chip8Interpreter.new : Chip8Interpreter :=
  { registers_v := List.replicate 16 0
    register_i := 0
    delay_timer := 0
    sound_timer := 0
    register_pc := FIRST_LOADABLE_ADDR
    frame_buffer := List.replicate FRAME_BUFFER_HEIGHT (List.replicate FRAME_BUFFER_WIDTH 0)
    stack := []
    mem := init_mem
    old_shift := false }

/-- Result of one step of the interpreter: a next state, a normal halt
(`std::process::exit(0)` on the `End` instruction), or a fatal fault
(a `panic!` / failed `unwrap` in the source). -/
inductive StepResult where
  | next (s : Chip8Interpreter)
  | halted
  | fault (msg : String)
  deriving DecidableEq, Repr

/-- `fn add_carry`: the 9-bit sum split into `(carry, low byte)`
(`((sum_16 >> 8) as u8, (sum_16 & 0xFF) as u8)`). -/
def add_carry (a b : Nat) : Nat × Nat :=
  let sum_16 := a + b
  (sum_16 >>> 8, sum_16 &&& 0xFF)

/-- `fn subtract_carry`: `(0, a - b)` when `a >= b`, else
`(1, (256 + a - b) as u8)`; the `as u8` cast truncates modulo 256. -/
def subtract_carry (a b : Nat) : Nat × Nat :=
  if a ≥ b then (0, a - b)
  else (1, (256 + a - b) % 256)

/-- `fn shift_left_carry`: returns `(val >> 7, val << 1)` — the shifted-out
high bit together with the left-shifted value (u8 truncation). -/
def shift_left_carry (val : Nat) : Nat × Nat :=
  (val >>> 7, (val <<< 1) % 256)

/-- `fn shift_right_carry`: returns `(val & 0x1, val >> 1)` — the
shifted-out low bit together with the right-shifted value. -/
def shift_right_carry (val : Nat) : Nat × Nat :=
  (val &&& 0x1, val >>> 1)

/-- The inner loop of `fn display` over the 8 bits of one sprite row:
`count` iterations remain, `x` is the current bit index, `sprite` is the
shifting row byte and `ret` accumulates the collision flag.  Out-of-range
`getD` reads return 0 where the source would index-panic (the source only
indexes inside the 32x64 buffer thanks to the `& 31` / `& 63` masks). -/
def drawBitsAux : Nat → List (List Nat) → Nat → Nat → Nat → Nat → Nat → Nat →
    List (List Nat) × Nat
  | 0, pixels, _, _, _, _, _, ret => (pixels, ret)
  | count + 1, pixels, sprite, x_cor, y_cor, row, x, ret =>
    if sprite >>> 7 > 0 then
      let to_y := (y_cor + row) &&& 31
      let to_x := (x_cor + x) &&& 63
      let oldRow := pixels.getD to_y []
      let old := oldRow.getD to_x 0
      let pixels2 := pixels.set to_y (oldRow.set to_x (old ^^^ 1))
      let new := (pixels2.getD to_y []).getD to_x 0
      let ret2 := if old ≠ new then 1 else ret
      drawBitsAux count pixels2 ((sprite <<< 1) % 256) x_cor y_cor row (x + 1) ret2
    else
      drawBitsAux count pixels ((sprite <<< 1) % 256) x_cor y_cor row (x + 1) ret

/-- The outer loop of `fn display` over the `n` sprite rows: reads the row
byte at `mem[i + row]` and runs the 8-bit inner loop. -/
def drawRowsAux : Nat → List (List Nat) → List Nat → Nat → Nat → Nat → Nat → Nat →
    List (List Nat) × Nat
  | 0, pixels, _, _, _, _, _, ret => (pixels, ret)
  | count + 1, pixels, mem, i, x_cor, y_cor, row, ret =>
    let sprite := mem.getD (i + row) 0
    let res := drawBitsAux 8 pixels sprite x_cor y_cor row 0 ret
    drawRowsAux count res.1 mem i x_cor y_cor (row + 1) res.2

/-- `fn display` (the sprite compositor): XOR-blits an `n`-row sprite read
from `mem[i..]` at `(x_cor, y_cor)` with toroidal wraparound; returns the
updated frame buffer together with the `ret` flag the source returns. -/
def display (pixels : List (List Nat)) (mem : List Nat) (i x_cor y_cor n : Nat) :
    List (List Nat) × Nat :=
  drawRowsAux n pixels mem i x_cor y_cor 0 0

/-- `Chip8Interpreter::execute`.  `rnd` stands for the byte sampled from
`random::<u8>()` in the `ICXNN` arm (the only nondeterministic input).
The `End` arm models `std::process::exit(0)`; `I00EE` on an empty stack
models the failed `unwrap` and the final `IFX1E` arm models the
`unimplemented` panic of the source's catch-all.  The unchecked `u8 +=`
of `I7XNN` and the `u16 += 2` of the skip arms wrap modulo `2^w`. -/
def execute (s : Chip8Interpreter) (inst : Instruction) (rnd : Nat) : StepResult :=
  match inst with
  | .End _ => .halted
  | .I00E0 _ =>
    .next { s with frame_buffer :=
      List.replicate FRAME_BUFFER_HEIGHT (List.replicate FRAME_BUFFER_WIDTH 0) }
  | .I00EE _ =>
    match s.stack.getLast? with
    | none => .fault "called Option::unwrap on a None value"
    | some addr => .next { s with register_pc := addr, stack := s.stack.dropLast }
  | .I1NNN op => .next { s with register_pc := op.nnn }
  | .I2NNN op => .next { s with stack := s.stack ++ [s.register_pc], register_pc := op.nnn }
  | .I3XNN op =>
    .next (if op.x = op.kk then { s with register_pc := (s.register_pc + 2) % 65536 } else s)
  | .I4XNN op =>
    .next (if op.x ≠ op.kk then { s with register_pc := (s.register_pc + 2) % 65536 } else s)
  | .I5XY0 op =>
    .next (if op.x = op.y then { s with register_pc := (s.register_pc + 2) % 65536 } else s)
  | .I9XY0 op =>
    .next (if op.x ≠ op.y then { s with register_pc := (s.register_pc + 2) % 65536 } else s)
  | .I6XNN op => .next { s with registers_v := s.registers_v.set op.x op.kk }
  | .I7XNN op =>
    .next { s with registers_v :=
      s.registers_v.set op.x ((s.registers_v.getD op.x 0 + op.kk) % 256) }
  | .I8XY0 op =>
    .next { s with registers_v := s.registers_v.set op.x (s.registers_v.getD op.y 0) }
  | .I8XY1 op =>
    .next { s with registers_v :=
      s.registers_v.set op.x (s.registers_v.getD op.x 0 ||| s.registers_v.getD op.y 0) }
  | .I8XY2 op =>
    .next { s with registers_v :=
      s.registers_v.set op.x (s.registers_v.getD op.x 0 &&& s.registers_v.getD op.y 0) }
  | .I8XY3 op =>
    .next { s with registers_v :=
      s.registers_v.set op.x (s.registers_v.getD op.x 0 ^^^ s.registers_v.getD op.y 0) }
  | .I8XY4 op =>
    let r := add_carry (s.registers_v.getD op.x 0) (s.registers_v.getD op.y 0)
    .next { s with registers_v := (s.registers_v.set op.x r.2).set 0xF r.1 }
  | .I8XY5 op =>
    let r := subtract_carry (s.registers_v.getD op.x 0) (s.registers_v.getD op.y 0)
    .next { s with registers_v := (s.registers_v.set op.x r.2).set 0xF r.1 }
  | .I8XY6 op =>
    let v1 := if s.old_shift then s.registers_v.set op.x (s.registers_v.getD op.y 0)
              else s.registers_v
    let r := shift_left_carry (v1.getD op.x 0)
    .next { s with registers_v := (v1.set op.x r.2).set 0xF r.1 }
  | .I8XYE op =>
    let v1 := if s.old_shift then s.registers_v.set op.x (s.registers_v.getD op.y 0)
              else s.registers_v
    let r := shift_right_carry (v1.getD op.x 0)
    .next { s with registers_v := (v1.set op.x r.2).set 0xF r.1 }
  | .I8XY7 op =>
    let r := subtract_carry (s.registers_v.getD op.y 0) (s.registers_v.getD op.x 0)
    .next { s with registers_v := (s.registers_v.set op.x r.2).set 0xF r.1 }
  | .IANNN op => .next { s with register_i := op.nnn }
  | .IBNNN op => .next { s with register_pc := op.nnn + s.registers_v.getD 0 0 }
  | .ICXNN op =>
    .next { s with registers_v := s.registers_v.set op.x ((rnd % 256) &&& op.kk) }
  | .IDXYN op =>
    let x_cor := s.registers_v.getD op.x 0 &&& 63
    let y_cor := s.registers_v.getD op.y 0 &&& 31
    let res := display s.frame_buffer s.mem s.register_i x_cor y_cor op.n
    .next { s with registers_v := (s.registers_v.set 0xF 0).set 0xF res.2,
                   frame_buffer := res.1 }
  | .IFX1E _ => .fault "Instruction is decoded but not implemented to be executed"

/-- `Chip8Interpreter::fetch`: big-endian read of two bytes at `register_pc`,
advancing the program counter by 2. -/
def fetch (s : Chip8Interpreter) : Nat × Chip8Interpreter :=
  let addr := s.register_pc
  ((s.mem.getD addr 0 <<< 8) ||| s.mem.getD (addr + 1) 0,
   { s with register_pc := (s.register_pc + 2) % 65536 })

/-- `Chip8Interpreter::exec`: one fetch-decode-execute cycle; a decode
failure is the fatal panic of `Chip8Interpreter::decode`. -/
def exec (s : Chip8Interpreter) (rnd : Nat) : StepResult :=
  let f := fetch s
  match Instruction.from_raw_opcode f.1 with
  | .error e => .fault e
  | .ok inst => execute f.2 inst rnd

/-- The body of `load_rom`'s copying loop: writes the file bytes at
`mem[0x200 + idx]` onwards. -/
def load_rom_copy : List Nat → Nat → List Nat → List Nat
  | mem, _, [] => mem
  | mem, idx, b :: rest => load_rom_copy (mem.set (0x200 + idx) (b % 256)) (idx + 1) rest

/-- `Chip8Interpreter::load_rom` on an already-read byte sequence: panics
(error) when the image exceeds `MEMORY_SIZE - FIRST_LOADABLE_ADDR` bytes —
the length check precedes the copy loop, so the error carries the machine
exactly as it was — and otherwise copies the image into memory at 0x200. -/
def load_rom (s : Chip8Interpreter) (file : List Nat) :
    Except (String × Chip8Interpreter) Chip8Interpreter :=
  let file_length_threshold := MEMORY_SIZE - FIRST_LOADABLE_ADDR
  if file.length > file_length_threshold then
    .error ("Err: Rom too long, only support rom with less than 3584 bytes!!", s)
  else
    .ok { s with mem := load_rom_copy s.mem 0 file }

/-- The timer-clock event handler of `run_rom`'s select loop: each nonzero
timer is decremented by one, clamped at zero. -/
def timerTick (s : Chip8Interpreter) : Chip8Interpreter :=
  let s1 := if s.delay_timer ≠ 0 then { s with delay_timer := s.delay_timer - 1 } else s
  if s1.sound_timer ≠ 0 then { s1 with sound_timer := s1.sound_timer - 1 } else s1

/-- The instruction-clock event handler of `run_rom`'s select loop: one
fetch-decode-execute cycle, but only when `delay_timer == 0` (the window
refresh that follows is presentation-only and touches no core state). -/
def cpuTick (s : Chip8Interpreter) (rnd : Nat) : StepResult :=
  if s.delay_timer = 0 then exec s rnd else .next s

/-- The instructions whose `execute` arm assigns `register_pc` directly
(return, jump, call, jump-with-offset), as opposed to leaving it where the
fetch put it or advancing it by 2. -/
def sets_pc_directly : Instruction → Bool
  | .I00EE _ => true
  | .I1NNN _ => true
  | .I2NNN _ => true
  | .IBNNN _ => true
  | _ => false

/-- Concrete machine for exercising the skip instructions:
`v = [5, 7, 9, 9, 0, ...]`. -/
def c1state : Chip8Interpreter :=
  { Chip8Interpreter.new with registers_v := [5, 7, 9, 9] ++ List.replicate 12 0 }

/-- Concrete machine with `v[1] = 3` for exercising the shift instructions. -/
def c2state : Chip8Interpreter :=
  { Chip8Interpreter.new with registers_v := [0, 3] ++ List.replicate 14 0 }

/-- Concrete machine with `v[0] = 0, v[1] = 1` for exercising `0x8xy5`. -/
def c4state : Chip8Interpreter :=
  { Chip8Interpreter.new with registers_v := [0, 1] ++ List.replicate 14 0 }

/-- A 4096-byte memory whose byte 0 is the one-row sprite `0x80`
(leftmost pixel set). -/
def c3mem : List Nat := 0x80 :: List.replicate 4095 0

/-- The all-off 32x64 frame buffer. -/
def c3fb_off : List (List Nat) :=
  List.replicate 32 (List.replicate 64 0)

/-- A frame buffer whose only lit pixel is at row 0, column 0. -/
def c3fb_on : List (List Nat) :=
  (List.replicate 32 (List.replicate 64 0)).set 0 ((List.replicate 64 0).set 0 1)

/-- A two-byte program consisting of the single instruction `0x1201`
(jump to the odd address 0x201). -/
def c8prog : List Nat := [0x12, 0x01]

/-- The fresh machine after loading `c8prog`. -/
def c8loaded : Chip8Interpreter :=
  { Chip8Interpreter.new with mem := load_rom_copy Chip8Interpreter.new.mem 0 c8prog }

/-- The fresh machine right after one fetch (program counter advanced to
0x202). -/
def c8post_fetch : Chip8Interpreter := (fetch Chip8Interpreter.new).2

/-- `c8post_fetch` after executing the register load `0x6105`. -/
def c8post_load : Chip8Interpreter :=
  { c8post_fetch with registers_v :=
      c8post_fetch.registers_v.set (take_param_x 0x6105) (take_param_kk 0x6105) }

/-!
## Helper lemmas
-/

theorem getD_set_self (l : List Nat) (i a : Nat) (h : i < l.length) :
    (l.set i a).getD i 0 = a := by
  simp [List.getD, List.getElem?_set_self, h]

theorem getD_set_other (l : List Nat) (i j a : Nat) (h : i ≠ j) :
    (l.set i a).getD j 0 = l.getD j 0 := by
  simp [List.getD, List.getElem?_set_ne h]

theorem take_param_x_lt (raw : Nat) : take_param_x raw < 16 := by
  have h : raw &&& 0x0F00 ≤ 0x0F00 := Nat.and_le_right
  unfold take_param_x
  rw [Nat.shiftRight_eq_div_pow]
  omega

/-!
## Claim theorems
-/

/-- Claim C1 (refuted, code bug): the skip instructions do not compare the
register value `v[x]` with `kk` (resp. `v[y]`): the `execute` arms compare
the register *index* nibble `opcode.x` with `opcode.kk` (resp. `opcode.y`).
On `c1state` (where `v = [5,7,9,9,...]`): word `0x3005` has `v[0] = 5 = kk`
yet the program counter is not advanced (the whole state is returned
unchanged); word `0x3101` has `v[1] = 7 ≠ 1 = kk` yet the skip is taken;
word `0x5230` has `v[2] = v[3] = 9` yet no skip happens because the nibbles
`2` and `3` differ. -/
theorem c1_skip_tests_nibble_not_register :
    (c1state.registers_v.getD 0 0 = take_param_kk 0x3005 ∧
      execute c1state (Instruction.I3XNN (Opcode.new 0x3005)) 0 = StepResult.next c1state) ∧
    (c1state.registers_v.getD 1 0 ≠ take_param_kk 0x3101 ∧
      execute c1state (Instruction.I3XNN (Opcode.new 0x3101)) 0 =
        StepResult.next { c1state with register_pc := (c1state.register_pc + 2) % 65536 }) ∧
    (c1state.registers_v.getD 2 0 = c1state.registers_v.getD 3 0 ∧
      execute c1state (Instruction.I5XY0 (Opcode.new 0x5230)) 0 = StepResult.next c1state) :=
  ⟨⟨rfl, rfl⟩, ⟨by decide, rfl⟩, ⟨rfl, rfl⟩⟩

/-- Claim C2 (refuted, code bug): the `0x8xy6` arm calls `shift_left_carry`,
so with the quirk disabled and `v[1] = 3` the word `0x8126` leaves
`v[1] = 6` (shift *left*) and `v[F] = 0` (the *high* bit of 3), where the
claim demands `v[1] = 1` and `v[F] = 1`; symmetrically `0x812E` calls
`shift_right_carry` and leaves `v[1] = 1`, `v[F] = 1`.  The helper
functions themselves are consistent with their names — the dispatch swaps
them. -/
theorem c2_8xy6_shifts_left_not_right :
    (∃ s', execute c2state (Instruction.I8XY6 (Opcode.new 0x8126)) 0 = StepResult.next s' ∧
      s'.registers_v.getD 1 0 = 6 ∧ s'.registers_v.getD 0xF 0 = 0) ∧
    (∃ s', execute c2state (Instruction.I8XYE (Opcode.new 0x812E)) 0 = StepResult.next s' ∧
      s'.registers_v.getD 1 0 = 1 ∧ s'.registers_v.getD 0xF 0 = 1) ∧
    shift_right_carry 3 = (1, 1) ∧ shift_left_carry 3 = (0, 6) :=
  ⟨⟨_, rfl, rfl, rfl⟩, ⟨_, rfl, rfl, rfl⟩, rfl, rfl⟩

/-- Claim C3 (refuted, code bug): `display` sets its collision flag whenever
any sprite bit is set, because `pixels[y][x] ^= 1` always changes the cell,
making the `old != pixels[to_y][to_x]` test vacuously true.  Drawing the
one-pixel sprite `0x80` on the all-off buffer reports collision 1 even
though the touched pixel was off and is turned *on* (second conjunct);
starting from a buffer with that pixel lit, the first draw (a genuine
collision) reports 1, and the second identical draw restores the original
buffer exactly (the true half of the claim) but still reports 1 where the
claim requires 0. -/
theorem c3_collision_flag_set_without_turnoff :
    (display c3fb_off c3mem 0 0 0 1).2 = 1 ∧
    ((display c3fb_off c3mem 0 0 0 1).1.getD 0 []).getD 0 0 = 1 ∧
    (display c3fb_on c3mem 0 0 0 1).2 = 1 ∧
    (display (display c3fb_on c3mem 0 0 0 1).1 c3mem 0 0 0 1).2 = 1 ∧
    (display (display c3fb_on c3mem 0 0 0 1).1 c3mem 0 0 0 1).1 = c3fb_on :=
  ⟨rfl, rfl, rfl, rfl, rfl⟩

/-- Claim C4 (refuted, code bug): `subtract_carry` returns carry 1 exactly
when a borrow occurs, and the `0x8xy5` arm stores that carry into `v[F]`
unchanged — so on `c4state` (`v[0] = 0, v[1] = 1`) the word `0x8015`
wraps the difference to 255 as the claim says, but sets `v[F] = 1` where
the claim (and the enum's own doc comment) requires `v[F] = 0` on borrow. -/
theorem c4_borrow_flag_inverted :
    subtract_carry 0 1 = (1, 255) ∧
    ∃ s', execute c4state (Instruction.I8XY5 (Opcode.new 0x8015)) 0 = StepResult.next s' ∧
      s'.registers_v.getD 0 0 = 255 ∧ s'.registers_v.getD 0xF 0 = 1 :=
  ⟨rfl, _, rfl, rfl, rfl⟩

/-- Claim C5 (refuted, code bug): `Instruction::from_raw_opcode` has no
branch for high nibble `0xB` or `0xC`, so the words `0xB123` and `0xC123`
— which the claim (and the opcode table) says classify as jump-with-offset
and random-AND — fall through to the decode failure, even though the
`IBNNN`/`ICXNN` variants exist and `execute` implements them. -/
theorem c5_bnnn_cxkk_not_decoded :
    Instruction.from_raw_opcode 0xB123 = .error "Cannot decode instruction" ∧
    Instruction.from_raw_opcode 0xC123 = .error "Cannot decode instruction" :=
  ⟨rfl, rfl⟩

/-- Claim C6 (confirmed): while `delay_timer` is nonzero, an
instruction-clock event performs no fetch-decode-execute cycle and returns
the machine state entirely unchanged, and a timer-clock event decrements
the delay timer by one while leaving the program counter, registers,
memory, frame buffer and stack untouched. -/
theorem c6_delay_timer_gates_cpu (s : Chip8Interpreter) (rnd : Nat)
    (h : s.delay_timer ≠ 0) :
    cpuTick s rnd = StepResult.next s ∧
    (timerTick s).delay_timer = s.delay_timer - 1 ∧
    (timerTick s).register_pc = s.register_pc ∧
    (timerTick s).registers_v = s.registers_v ∧
    (timerTick s).mem = s.mem ∧
    (timerTick s).frame_buffer = s.frame_buffer ∧
    (timerTick s).stack = s.stack := by
  refine ⟨by simp [cpuTick, h], ?_, ?_, ?_, ?_, ?_, ?_⟩ <;>
    · simp only [timerTick, if_pos h]
      split <;> rfl

/-- Witness for C6 at a machine with `delay_timer = 3`. -/
theorem c6_delay_timer_gates_cpu_witness :
    cpuTick { Chip8Interpreter.new with delay_timer := 3 } 0 =
      StepResult.next { Chip8Interpreter.new with delay_timer := 3 } ∧
    (timerTick { Chip8Interpreter.new with delay_timer := 3 }).delay_timer = 3 - 1 ∧
    (timerTick { Chip8Interpreter.new with delay_timer := 3 }).register_pc =
      ({ Chip8Interpreter.new with delay_timer := 3 } : Chip8Interpreter).register_pc ∧
    (timerTick { Chip8Interpreter.new with delay_timer := 3 }).registers_v =
      ({ Chip8Interpreter.new with delay_timer := 3 } : Chip8Interpreter).registers_v ∧
    (timerTick { Chip8Interpreter.new with delay_timer := 3 }).mem =
      ({ Chip8Interpreter.new with delay_timer := 3 } : Chip8Interpreter).mem ∧
    (timerTick { Chip8Interpreter.new with delay_timer := 3 }).frame_buffer =
      ({ Chip8Interpreter.new with delay_timer := 3 } : Chip8Interpreter).frame_buffer ∧
    (timerTick { Chip8Interpreter.new with delay_timer := 3 }).stack =
      ({ Chip8Interpreter.new with delay_timer := 3 } : Chip8Interpreter).stack :=
  c6_delay_timer_gates_cpu { Chip8Interpreter.new with delay_timer := 3 } 0 (by decide)

/-- Claim C7 (confirmed): `0x7xkk` always yields a next state (the unchecked
`u8` addition is modelled as wrapping modulo 256, i.e. the release-build
semantics of the source's `+=`), the target register receives
`(v[x] + kk) % 256`, and `v[F]` is untouched whenever `x ≠ 0xF`. -/
theorem c7_add_immediate_wraps_no_flag (s : Chip8Interpreter) (raw rnd : Nat)
    (hlen : s.registers_v.length = 16)
    (hxF : take_param_x raw ≠ 0xF) :
    ∃ s', execute s (Instruction.I7XNN (Opcode.new raw)) rnd = StepResult.next s' ∧
      s'.registers_v.getD (take_param_x raw) 0 =
        (s.registers_v.getD (take_param_x raw) 0 + take_param_kk raw) % 256 ∧
      s'.registers_v.getD 0xF 0 = s.registers_v.getD 0xF 0 := by
  refine ⟨_, rfl, ?_, ?_⟩
  · exact getD_set_self _ _ _ (by rw [hlen]; exact take_param_x_lt raw)
  · exact getD_set_other _ _ _ _ hxF

/-- Witness for C7: `v[1] = 200`, word `0x7138` (`kk = 56`), so the
register wraps to `(200 + 56) % 256 = 0` and `v[F]` stays 0. -/
theorem c7_add_immediate_wraps_no_flag_witness :
    ∃ s', execute { Chip8Interpreter.new with registers_v := [0, 200] ++ List.replicate 14 0 }
        (Instruction.I7XNN (Opcode.new 0x7138)) 0 = StepResult.next s' ∧
      s'.registers_v.getD (take_param_x 0x7138) 0 =
        (({ Chip8Interpreter.new with registers_v := [0, 200] ++ List.replicate 14 0 } :
            Chip8Interpreter).registers_v.getD (take_param_x 0x7138) 0 +
          take_param_kk 0x7138) % 256 ∧
      s'.registers_v.getD 0xF 0 =
        ({ Chip8Interpreter.new with registers_v := [0, 200] ++ List.replicate 14 0 } :
            Chip8Interpreter).registers_v.getD 0xF 0 :=
  c7_add_immediate_wraps_no_flag
    { Chip8Interpreter.new with registers_v := [0, 200] ++ List.replicate 14 0 }
    0x7138 0 (by decide) (by decide)

set_option maxRecDepth 40000 in
/-- Claim C8 (refuted): the program counter is not always even before a
fetch.  Loading the single-instruction program `0x1201` into a fresh
machine and running one fetch-decode-execute cycle sets the program
counter to the odd address 0x201, which is where the next fetch would
read. -/
theorem c8_jump_reaches_odd_pc :
    load_rom Chip8Interpreter.new c8prog = .ok c8loaded ∧
    ∃ s', exec c8loaded 0 = StepResult.next s' ∧ s'.register_pc % 2 = 1 :=
  ⟨rfl, _, rfl, rfl⟩

/-- Claim C8 as amended: the initial program counter 0x200 is even, one
fetch preserves evenness, and executing any instruction that does not set
the program counter directly (i.e. any instruction other than return,
jump, call and jump-with-offset) preserves evenness; the direct setters
copy an arbitrary target into the program counter and can therefore break
the invariant, which the code does not enforce. -/
theorem c8_amended_even_pc_preserved (s : Chip8Interpreter) (inst : Instruction)
    (rnd : Nat) (s' : Chip8Interpreter)
    (heven : s.register_pc % 2 = 0)
    (hni : sets_pc_directly inst = false)
    (h : execute (fetch s).2 inst rnd = StepResult.next s') :
    Chip8Interpreter.new.register_pc % 2 = 0 ∧
    (fetch s).2.register_pc % 2 = 0 ∧
    s'.register_pc % 2 = 0 := by
  have hf : (fetch s).2.register_pc % 2 = 0 := by
    simp only [fetch]
    omega
  refine ⟨by decide, hf, ?_⟩
  cases inst <;> simp only [sets_pc_directly] at hni <;> simp only [execute] at h <;>
    (try split at h) <;>
    first
      | exact Bool.noConfusion hni
      | exact StepResult.noConfusion h
      | (injection h with h2; subst h2;
         first
           | exact hf
           | (show ((fetch s).2.register_pc + 2) % 65536 % 2 = 0; omega))

/-- Witness for the amended C8: from the fresh machine (even pc 0x200),
fetching and then executing the register-load `0x6105` leaves the program
counter at the even address 0x202. -/
theorem c8_amended_even_pc_preserved_witness :
    Chip8Interpreter.new.register_pc % 2 = 0 ∧
    (fetch Chip8Interpreter.new).2.register_pc % 2 = 0 ∧
    c8post_load.register_pc % 2 = 0 :=
  c8_amended_even_pc_preserved Chip8Interpreter.new
    (Instruction.I6XNN (Opcode.new 0x6105)) 0 c8post_load
    (by decide) (by decide) rfl

/-- Claim C9 (confirmed): an image longer than `4096 - 0x200 = 3584` bytes
is rejected by `load_rom` — the length check precedes the copy loop, so
the error carries the machine exactly as it was: memory, registers,
timers, program counter, stack and frame buffer untouched. -/
theorem c9_oversized_rom_rejected (s : Chip8Interpreter) (file : List Nat)
    (h : file.length > MEMORY_SIZE - FIRST_LOADABLE_ADDR) :
    load_rom s file =
      .error ("Err: Rom too long, only support rom with less than 3584 bytes!!", s) := by
  simp only [load_rom]
  rw [if_pos]
  exact h

/-- Witness for C9: a 3585-byte all-zero image against the fresh machine. -/
theorem c9_oversized_rom_rejected_witness :
    load_rom Chip8Interpreter.new (List.replicate 3585 0) =
      .error ("Err: Rom too long, only support rom with less than 3584 bytes!!",
        Chip8Interpreter.new) :=
  c9_oversized_rom_rejected Chip8Interpreter.new (List.replicate 3585 0)
    (by norm_num [List.length_replicate, MEMORY_SIZE, FIRST_LOADABLE_ADDR])

/-- Claim C10 (confirmed): no `execute` arm writes to memory — every step
that yields a next state leaves the whole 4096-byte array (and in
particular the font table at 0x000–0x04F) exactly as it was. -/
theorem c10_execute_preserves_memory (s : Chip8Interpreter) (inst : Instruction)
    (rnd : Nat) (s' : Chip8Interpreter)
    (h : execute s inst rnd = StepResult.next s') :
    s'.mem = s.mem ∧ ∀ k, k < 0x50 → s'.mem.getD k 0 = s.mem.getD k 0 := by
  cases inst <;> simp only [execute] at h <;>
    (try split at h) <;>
    first
      | exact StepResult.noConfusion h
      | (injection h with h2; subst h2; exact ⟨rfl, fun k _ => rfl⟩)

/-- Witness for C10: executing `0xA123` (set `register_i`) on the fresh
machine leaves memory — including the font table — unchanged. -/
theorem c10_execute_preserves_memory_witness :
    ({ Chip8Interpreter.new with register_i := take_param_nnn 0xA123 } :
        Chip8Interpreter).mem = Chip8Interpreter.new.mem ∧
    ∀ k, k < 0x50 →
      ({ Chip8Interpreter.new with register_i := take_param_nnn 0xA123 } :
          Chip8Interpreter).mem.getD k 0 = Chip8Interpreter.new.mem.getD k 0 :=
  c10_execute_preserves_memory Chip8Interpreter.new
    (Instruction.IANNN (Opcode.new 0xA123)) 0
    { Chip8Interpreter.new with register_i := take_param_nnn 0xA123 } rfl

end Chip8
